import Mathlib

/-!
Shallow embedding of the identity-linking backend (FastAPI + SQLModel).

The embedding follows the source files:
  - `utils/models.py`   : `UserStatus`, `PrivacyLevel`, `User`, `User.public_dict`
  - `utils/auth_helpers.py` : `verify_firebase_token`, `upsert_user_from_token`,
    `user_status_active`
  - `app/user_router.py` : the onboarding-merge section of `signup_route`

Modelling conventions:
  - The database is a `List User`; `session.exec(select(User).where(...))`
    with `scalar_one_or_none` becomes `List.find?` (the unique index on
    `firebase_uid` keeps at most one matching row in any reachable store).
  - `datetime.now(timezone.utc)` becomes an abstract tick `now : Nat`;
    `isoformat` becomes the decimal rendering of the tick.
  - The commit of the create branch may be failed by the environment: the
    `fault` argument is `none` when the INSERT commits, or `some e` when the
    database raises `e`.  The `reread` argument is the store state the
    re-query observes after a rollback (it can contain a row committed by a
    concurrent winner).  The update-branch commit is not wrapped in any
    `try/except` in the source, so it is modelled as always succeeding.
  - The `updated_at` column carries `onupdate=func.now()` in
    `utils/models.py`, so a committed UPDATE of a row refreshes its
    `updated_at`; the model applies this at the update-branch commit.
  - Python truthiness of an optional string (`None` and `""` are falsy) is
    `strTruthy`.
-/

namespace InterBackend

/-- `UserStatus` enum of `utils/models.py`. -/
inductive UserStatus where
  | active
  | suspended
  | deleted
deriving DecidableEq, Repr

/-- String value of a `UserStatus` member (`status.value`). -/
def UserStatus.value : UserStatus → String
  | .active => "active"
  | .suspended => "suspended"
  | .deleted => "deleted"

/-- `PrivacyLevel` enum of `utils/models.py`. -/
inductive PrivacyLevel where
  | default
  | strict
  | custom
deriving DecidableEq, Repr

/-- String value of a `PrivacyLevel` member (`privacy_level.value`). -/
def PrivacyLevel.value : PrivacyLevel → String
  | .default => "default"
  | .strict => "strict"
  | .custom => "custom"

/-- The `User` row of `utils/models.py`.  Timestamps are abstract ticks,
the primary key and the consent reference are strings, the encrypted PII
blob is an optional byte list. -/
structure User where
  id : String
  firebase_uid : String
  email : String
  email_verified : Bool
  display_name : Option String
  pii_encrypted_blob : Option (List Nat)
  created_at : Nat
  updated_at : Nat
  last_login_at : Option Nat
  status : UserStatus
  privacy_level : PrivacyLevel
  consent_version_id : Option String
deriving DecidableEq, Repr

/-- The decoded Firebase token payload, restricted to the keys
`upsert_user_from_token` reads: `uid`, `email`, `email_verified`, `name`,
`displayName`.  A missing key is `none`. -/
structure TokenPayload where
  uid : String
  email : Option String
  email_verified : Option Bool
  name : Option String
  displayName : Option String
deriving DecidableEq, Repr

/-- Python truthiness of an optional string: `None` and `""` are falsy. -/
def strTruthy : Option String → Bool
  | none => false
  | some s => s != ""

/-- Python `a or b` on optional strings: keeps `a` when it is truthy,
otherwise yields `b` (which may itself be `None` or `""`). -/
def pyOrStr (a b : Option String) : Option String :=
  if strTruthy a then a else b

/-- Python `s.startswith(p)`: the first `len(p)` characters of `s` are
exactly `p`. -/
def pyStartsWith (s p : String) : Bool :=
  s.data.take p.data.length == p.data

/-- `select(User).where(User.firebase_uid == uid)` followed by
`scalar_one_or_none()`: the first row of the store with that uid. -/
def findByUid (db : List User) (uid : String) : Option User :=
  db.find? (fun u => u.firebase_uid == uid)

/-- Replace every row carrying `u.firebase_uid` by `u` (commit of a
mutated attached row). -/
def updateByUid (db : List User) (u : User) : List User :=
  db.map (fun v => if v.firebase_uid == u.firebase_uid then u else v)

/-- Kinds of persistence failure the environment can raise at a commit.
The first two are subclasses of SQLAlchemy `IntegrityError` (a duplicate
key on the unique `firebase_uid` index, and any other integrity-constraint
violation such as a primary-key collision); `operational` stands for every
non-integrity persistence failure.  `noResult` is the error `scalar_one()`
raises when the re-query after a rollback finds no row. -/
inductive DbError where
  | uniqueViolationUid
  | otherIntegrity
  | operational
  | noResult
deriving DecidableEq, Repr

/-- Whether a `DbError` is an instance of the `IntegrityError` class the
`except IntegrityError:` clause catches. -/
def DbError.isIntegrityError : DbError → Bool
  | .uniqueViolationUid => true
  | .otherIntegrity => true
  | .operational => false
  | .noResult => false

/-- Modelled from the spec: `user_status_active` in
`utils/auth_helpers.py` imports `UserStatus` from `app.models`, a module
absent from this snapshot of the repository; the spec fixes the status of
a newly created user to active, and the local `utils.models.UserStatus`
enum carries the same `ACTIVE` member, so the helper is modelled as
returning `UserStatus.active`. -/
def user_status_active : UserStatus := UserStatus.active

/-- Outcome of `upsert_user_from_token`: the returned user, the store
after the call, and the number of commits the call issued. -/
structure UpsertResult where
  user : User
  db : List User
  commits : Nat
deriving DecidableEq, Repr

/-- The found branch of `upsert_user_from_token` (`utils/auth_helpers.py`
lines 78 to 91, before the commit): applies the diff-gated field mirrors
and the unconditional login stamp to the attached row, returning the
mutated row and the `updated` flag. -/
def applyClaimsUpdate (payload : TokenPayload) (user : User) (now : Nat)
    (set_last_login : Bool) : User × Bool :=
  let mirrored_email := payload.email
  let email_verified := payload.email_verified.getD false
  let display_name := pyOrStr payload.name payload.displayName
  let s1 :=
    if strTruthy mirrored_email && (user.email != mirrored_email.getD "") then
      ({ user with email := mirrored_email.getD "" }, true)
    else (user, false)
  let s2 :=
    if s1.1.email_verified != email_verified then
      ({ s1.1 with email_verified := email_verified }, true)
    else s1
  let s3 :=
    if strTruthy display_name && (s2.1.display_name != display_name) then
      ({ s2.1 with display_name := display_name }, true)
    else s2
  if set_last_login then ({ s3.1 with last_login_at := some now }, true) else s3

/-- `upsert_user_from_token` of `utils/auth_helpers.py`.  `newId` is the
uuid generated for a fresh row; `fault` is the environment verdict on the
create-branch commit (`none` = committed); `reread` is the store the
re-query sees after a rollback. -/
def upsert_user_from_token (payload : TokenPayload) (db : List User)
    (now : Nat) (newId : String) (set_last_login : Bool)
    (default_privacy : PrivacyLevel) (fault : Option DbError)
    (reread : List User) : Except DbError UpsertResult :=
  let uid := payload.uid
  match findByUid db uid with
  | none =>
      let user : User :=
        { id := newId
          firebase_uid := uid
          email := payload.email.getD ""
          email_verified := payload.email_verified.getD false
          display_name := pyOrStr payload.name payload.displayName
          pii_encrypted_blob := none
          created_at := now
          updated_at := now
          last_login_at := if set_last_login then some now else none
          status := user_status_active
          privacy_level := default_privacy
          consent_version_id := none }
      match fault with
      | none => Except.ok ⟨user, db ++ [user], 1⟩
      | some e =>
          if e.isIntegrityError then
            match findByUid reread uid with
            | some winner => Except.ok ⟨winner, reread, 0⟩
            | none => Except.error DbError.noResult
          else Except.error e
  | some user =>
      let s := applyClaimsUpdate payload user now set_last_login
      if s.2 then
        let u := { s.1 with updated_at := now }
        Except.ok ⟨u, updateByUid db u, 1⟩
      else Except.ok ⟨s.1, db, 0⟩

/-- The error raised by `HTTPException(status_code=..., detail=...)`. -/
structure HTTPError where
  status_code : Nat
  detail : String
deriving DecidableEq, Repr

/-- `verify_firebase_token` of `utils/auth_helpers.py`.  `auth_header` is
`request.headers.get("Authorization")` (`none` when absent);
`verify_id_token` is the external `firebase_auth.verify_id_token` call,
returning the decoded payload or raising (its `String` is the diagnostic
carried by the raised exception).  `bearer_token` is the local
`id_token` assignment: `auth_header.split("Bearer ")[1].strip()`. -/
def bearer_token (auth_header : Option String) : String :=
  (((auth_header.getD "").splitOn "Bearer ").getD 1 "").trim

/-- See `bearer_token` above: `verify_firebase_token` of
`utils/auth_helpers.py`. -/
def verify_firebase_token (auth_header : Option String)
    (verify_id_token : String → Except String TokenPayload) :
    Except HTTPError TokenPayload :=
  if !(strTruthy auth_header) || !(pyStartsWith (auth_header.getD "") "Bearer ") then
    Except.error ⟨401, "Missing Authorization bearer token"⟩
  else
    match verify_id_token (bearer_token auth_header) with
    | Except.ok decoded => Except.ok decoded
    | Except.error _ =>
        Except.error ⟨401, "Token verification failed"⟩

/-- A value of the mapping returned by `User.public_dict`: a JSON string,
a JSON boolean, or JSON null. -/
inductive PubValue where
  | str (s : String)
  | bool (b : Bool)
  | null
deriving DecidableEq, Repr

/-- `datetime.isoformat`, modelled as the decimal rendering of the
abstract tick (injective, round-trippable). -/
def isoformat (t : Nat) : String := Nat.repr t

/-- `User.public_dict` of `utils/models.py`.  In the source,
`created_at` and `updated_at` are guarded by a truthiness check, but a
`datetime` instance is always truthy in Python, so both render
unconditionally; `last_login_at` and `consent_version_id` render to null
when `None`. -/
def User.public_dict (u : User) : List (String × PubValue) :=
  [ ("id", PubValue.str u.id),
    ("firebase_uid", PubValue.str u.firebase_uid),
    ("email", PubValue.str u.email),
    ("email_verified", PubValue.bool u.email_verified),
    ("display_name",
      match u.display_name with
      | some s => PubValue.str s
      | none => PubValue.null),
    ("status", PubValue.str u.status.value),
    ("privacy_level", PubValue.str u.privacy_level.value),
    ("consent_version_id",
      match u.consent_version_id with
      | some c => PubValue.str c
      | none => PubValue.null),
    ("created_at", PubValue.str (isoformat u.created_at)),
    ("updated_at", PubValue.str (isoformat u.updated_at)),
    ("last_login_at",
      match u.last_login_at with
      | some t => PubValue.str (isoformat t)
      | none => PubValue.null) ]

/-- The optional onboarding body accepted by `signup_route`
(`app/user_router.py`, `SignupRequest`). -/
structure SignupRequest where
  display_name : Option String
  privacy_level : Option PrivacyLevel
  consent_version_id : Option String
deriving DecidableEq, Repr

/-- The onboarding-merge section of `signup_route`
(`app/user_router.py` lines 42 to 60): applies the caller-supplied
fields to the reconciled user and returns the mutated user together with
the `updated` flag that decides whether the route issues its additional
commit.  Note that the `consent_version_id` branch follows
`if body.consent_version_id:` with a plain assignment, with no comparison
against the current value. -/
def signup_route_merge (body : SignupRequest) (user : User) : User × Bool :=
  let s1 :=
    if strTruthy body.display_name && (user.display_name != body.display_name) then
      ({ user with display_name := body.display_name }, true)
    else (user, false)
  let s2 :=
    match body.privacy_level with
    | some p => if s1.1.privacy_level != p then ({ s1.1 with privacy_level := p }, true) else s1
    | none => s1
  if strTruthy body.consent_version_id then
    ({ s2.1 with consent_version_id := body.consent_version_id }, true)
  else s2

/-! ## Helper lemmas -/

lemma findByUid_uid {db : List User} {uid : String} {u : User}
    (hfind : findByUid db uid = some u) : u.firebase_uid = uid := by
  have h := List.find?_some hfind
  simpa using h

lemma findByUid_updateByUid {db : List User} {uid : String} {u : User} (w : User)
    (hfind : findByUid db uid = some u) (hw : w.firebase_uid = u.firebase_uid) :
    findByUid (updateByUid db w) uid = some w := by
  have huid : u.firebase_uid = uid := findByUid_uid hfind
  induction db with
  | nil => simp [findByUid] at hfind
  | cons v t ih =>
    by_cases hv : v.firebase_uid = uid
    · have hvu : v = u := by
        simp only [findByUid, List.find?_cons_of_pos, hv, beq_self_eq_true] at hfind
        exact Option.some.inj hfind
      simp only [updateByUid, List.map_cons]
      have hcond : (v.firebase_uid == w.firebase_uid) = true := by
        simp [hv, hw, huid]
      simp only [hcond, if_true, findByUid]
      have : (w.firebase_uid == uid) = true := by simp [hw, huid]
      simp [List.find?_cons_of_pos, this]
    · have hfind2 : findByUid t uid = some u := by
        simp only [findByUid] at hfind ⊢
        rwa [List.find?_cons_of_neg] at hfind
        simp [hv]
      have hcond : (v.firebase_uid == w.firebase_uid) = false := by
        simp only [beq_eq_false_iff_ne, ne_eq]
        intro hc
        exact hv (by rw [hc, hw, huid])
      simp only [updateByUid, List.map_cons, hcond, if_false, findByUid]
      rw [List.find?_cons_of_neg]
      · exact ih hfind2
      · simp [hv]

lemma applyClaimsUpdate_firebase_uid (p : TokenPayload) (u : User) (now : Nat)
    (sll : Bool) : (applyClaimsUpdate p u now sll).1.firebase_uid = u.firebase_uid := by
  simp only [applyClaimsUpdate]
  repeat' split
  all_goals simp_all

lemma applyClaimsUpdate_email_verified (p : TokenPayload) (u : User) (now : Nat)
    (sll : Bool) :
    (applyClaimsUpdate p u now sll).1.email_verified = p.email_verified.getD false := by
  simp only [applyClaimsUpdate]
  repeat' split
  all_goals simp_all

lemma applyClaimsUpdate_email_keep (p : TokenPayload) (u : User) (now : Nat)
    (sll : Bool) (he : strTruthy p.email = false) :
    (applyClaimsUpdate p u now sll).1.email = u.email := by
  simp only [applyClaimsUpdate]
  repeat' split
  all_goals simp_all

lemma applyClaimsUpdate_email_set (p : TokenPayload) (u : User) (now : Nat)
    (sll : Bool) (he : strTruthy p.email = true) (hne : u.email ≠ p.email.getD "") :
    (applyClaimsUpdate p u now sll).1.email = p.email.getD "" := by
  simp only [applyClaimsUpdate]
  repeat' split
  all_goals simp_all

lemma applyClaimsUpdate_display_keep (p : TokenPayload) (u : User) (now : Nat)
    (sll : Bool) (hd : strTruthy (pyOrStr p.name p.displayName) = false) :
    (applyClaimsUpdate p u now sll).1.display_name = u.display_name := by
  simp only [applyClaimsUpdate]
  repeat' split
  all_goals simp_all

lemma applyClaimsUpdate_last_login (p : TokenPayload) (u : User) (now : Nat)
    (hsll : sll = true) : (applyClaimsUpdate p u now sll).1.last_login_at = some now := by
  subst hsll
  simp only [applyClaimsUpdate]
  repeat' split
  all_goals simp_all

lemma applyClaimsUpdate_flag_of_sll (p : TokenPayload) (u : User) (now : Nat) :
    (applyClaimsUpdate p u now true).2 = true := by
  simp only [applyClaimsUpdate]
  repeat' split
  all_goals simp_all

lemma applyClaimsUpdate_flag_of_verified (p : TokenPayload) (u : User) (now : Nat)
    (sll : Bool) (hne : p.email_verified.getD false ≠ u.email_verified) :
    (applyClaimsUpdate p u now sll).2 = true := by
  simp only [applyClaimsUpdate]
  repeat' split
  all_goals simp_all

lemma applyClaimsUpdate_noop (p : TokenPayload) (u : User) (now : Nat)
    (h1 : p.email = some u.email)
    (h2 : p.email_verified.getD false = u.email_verified)
    (h3 : pyOrStr p.name p.displayName = u.display_name) :
    applyClaimsUpdate p u now false = (u, false) := by
  simp [applyClaimsUpdate, h1, h2, h3, strTruthy]

lemma upsert_found (p : TokenPayload) (db : List User) (now : Nat) (newId : String)
    (sll : Bool) (dp : PrivacyLevel) (fault : Option DbError) (reread : List User)
    (u : User) (hfind : findByUid db p.uid = some u) :
    upsert_user_from_token p db now newId sll dp fault reread =
      (if (applyClaimsUpdate p u now sll).2 then
        Except.ok ⟨{ (applyClaimsUpdate p u now sll).1 with updated_at := now },
          updateByUid db { (applyClaimsUpdate p u now sll).1 with updated_at := now }, 1⟩
      else Except.ok ⟨(applyClaimsUpdate p u now sll).1, db, 0⟩) := by
  simp only [upsert_user_from_token, hfind]

/-! ## Claim theorems -/

/-- Claim C2: for a claims record whose subject id matches no existing user,
the reconciliation routine constructs and persists a new User whose
external subject id is the claims subject, email is the claims email or
empty string, email-verified is the claims flag (false when absent),
display name is the claims display name if present else absent, created-at
equals updated-at equals the call time, last-login-at is the call time iff
`set_last_login`, privacy level is the provided default, and status is
active. -/
theorem upsert_creates_user (p : TokenPayload) (db : List User) (now : Nat)
    (newId : String) (sll : Bool) (dp : PrivacyLevel) (reread : List User)
    (hfind : findByUid db p.uid = none) :
    ∃ r, upsert_user_from_token p db now newId sll dp none reread = Except.ok r ∧
      r.user.firebase_uid = p.uid ∧
      r.user.email = p.email.getD "" ∧
      r.user.email_verified = p.email_verified.getD false ∧
      r.user.display_name = pyOrStr p.name p.displayName ∧
      r.user.created_at = now ∧
      r.user.updated_at = now ∧
      r.user.last_login_at = (if sll then some now else none) ∧
      r.user.privacy_level = dp ∧
      r.user.status = UserStatus.active ∧
      r.db = db ++ [r.user] ∧
      r.commits = 1 := by
  simp only [upsert_user_from_token, hfind]
  exact ⟨_, rfl, rfl, rfl, rfl, rfl, rfl, rfl, rfl, rfl, rfl, rfl, rfl⟩

/-- Witness for C2 at a concrete claims record and an empty store. -/
theorem upsert_creates_user_witness :
    findByUid [] "u1" = none ∧
    ∃ r, upsert_user_from_token ⟨"u1", some "u@example.com", some true, some "Ada", none⟩
        [] 7 "idN" true PrivacyLevel.strict none [] = Except.ok r ∧
      r.user.firebase_uid = "u1" ∧
      r.user.email = "u@example.com" ∧
      r.user.email_verified = true ∧
      r.user.display_name = some "Ada" ∧
      r.user.created_at = 7 ∧
      r.user.updated_at = 7 ∧
      r.user.last_login_at = some 7 ∧
      r.user.privacy_level = PrivacyLevel.strict ∧
      r.user.status = UserStatus.active ∧
      r.db = [] ++ [r.user] ∧
      r.commits = 1 :=
  ⟨by decide,
    upsert_creates_user ⟨"u1", some "u@example.com", some true, some "Ada", none⟩
      [] 7 "idN" true PrivacyLevel.strict [] (by decide)⟩

/-- Claim C4: reconciliation is idempotent when login stamping is
suppressed — with `set_last_login = false` and claims identical to the
stored values, the call issues zero commits, returns the stored record and
leaves the store unchanged. -/
theorem upsert_idempotent_no_login (p : TokenPayload) (db : List User) (now : Nat)
    (newId : String) (dp : PrivacyLevel) (fault : Option DbError)
    (reread : List User) (u : User)
    (hfind : findByUid db p.uid = some u)
    (h1 : p.email = some u.email)
    (h2 : p.email_verified.getD false = u.email_verified)
    (h3 : pyOrStr p.name p.displayName = u.display_name) :
    upsert_user_from_token p db now newId false dp fault reread =
      Except.ok ⟨u, db, 0⟩ := by
  rw [upsert_found p db now newId false dp fault reread u hfind,
    applyClaimsUpdate_noop p u now h1 h2 h3]
  simp

/-- Witness for C4 at a concrete stored user and matching claims. -/
theorem upsert_idempotent_no_login_witness :
    (findByUid [⟨"id0", "u1", "a@x.com", true, some "Ada", none, 5, 5, some 5,
        UserStatus.active, PrivacyLevel.default, none⟩] "u1" =
      some ⟨"id0", "u1", "a@x.com", true, some "Ada", none, 5, 5, some 5,
        UserStatus.active, PrivacyLevel.default, none⟩ ∧
      (some "a@x.com" : Option String) = some "a@x.com" ∧
      (some true : Option Bool).getD false = true ∧
      pyOrStr (some "Ada") none = some "Ada") ∧
    upsert_user_from_token ⟨"u1", some "a@x.com", some true, some "Ada", none⟩
        [⟨"id0", "u1", "a@x.com", true, some "Ada", none, 5, 5, some 5,
          UserStatus.active, PrivacyLevel.default, none⟩]
        9 "idN" false PrivacyLevel.default none [] =
      Except.ok ⟨⟨"id0", "u1", "a@x.com", true, some "Ada", none, 5, 5, some 5,
          UserStatus.active, PrivacyLevel.default, none⟩,
        [⟨"id0", "u1", "a@x.com", true, some "Ada", none, 5, 5, some 5,
          UserStatus.active, PrivacyLevel.default, none⟩], 0⟩ :=
  ⟨⟨by decide, by decide, by decide, by decide⟩,
    upsert_idempotent_no_login ⟨"u1", some "a@x.com", some true, some "Ada", none⟩
      [⟨"id0", "u1", "a@x.com", true, some "Ada", none, 5, 5, some 5,
        UserStatus.active, PrivacyLevel.default, none⟩]
      9 "idN" PrivacyLevel.default none []
      ⟨"id0", "u1", "a@x.com", true, some "Ada", none, 5, 5, some 5,
        UserStatus.active, PrivacyLevel.default, none⟩
      (by decide) (by decide) (by decide) (by decide)⟩

/-- Claim C5: for an existing user, an empty or absent claims email leaves
the stored email unchanged, and an empty or absent claims display name
leaves the stored display name unchanged (in particular it never
overwrites an existing non-empty one). -/
theorem upsert_no_blanking (p : TokenPayload) (db : List User) (now : Nat)
    (newId : String) (sll : Bool) (dp : PrivacyLevel) (fault : Option DbError)
    (reread : List User) (u : User)
    (hfind : findByUid db p.uid = some u) :
    ∃ r, upsert_user_from_token p db now newId sll dp fault reread = Except.ok r ∧
      (strTruthy p.email = false → r.user.email = u.email) ∧
      (strTruthy (pyOrStr p.name p.displayName) = false →
        r.user.display_name = u.display_name) := by
  rw [upsert_found p db now newId sll dp fault reread u hfind]
  cases hs : (applyClaimsUpdate p u now sll).2 with
  | false =>
    exact ⟨⟨(applyClaimsUpdate p u now sll).1, db, 0⟩, by simp [hs],
      fun he => applyClaimsUpdate_email_keep p u now sll he,
      fun hd => applyClaimsUpdate_display_keep p u now sll hd⟩
  | true =>
    exact ⟨⟨{ (applyClaimsUpdate p u now sll).1 with updated_at := now },
        updateByUid db { (applyClaimsUpdate p u now sll).1 with updated_at := now }, 1⟩,
      by simp [hs],
      fun he => applyClaimsUpdate_email_keep p u now sll he,
      fun hd => applyClaimsUpdate_display_keep p u now sll hd⟩

/-- Witness for C5: claims with no email and no display name against a
stored user with both. -/
theorem upsert_no_blanking_witness :
    findByUid [⟨"id0", "u1", "a@x.com", true, some "Ada", none, 5, 5, some 5,
        UserStatus.active, PrivacyLevel.default, none⟩] "u1" =
      some ⟨"id0", "u1", "a@x.com", true, some "Ada", none, 5, 5, some 5,
        UserStatus.active, PrivacyLevel.default, none⟩ ∧
    ∃ r, upsert_user_from_token ⟨"u1", none, some true, none, none⟩
        [⟨"id0", "u1", "a@x.com", true, some "Ada", none, 5, 5, some 5,
          UserStatus.active, PrivacyLevel.default, none⟩]
        9 "idN" true PrivacyLevel.default none [] = Except.ok r ∧
      (strTruthy none = false → r.user.email = "a@x.com") ∧
      (strTruthy (pyOrStr none none) = false → r.user.display_name = some "Ada") :=
  ⟨by decide,
    upsert_no_blanking ⟨"u1", none, some true, none, none⟩
      [⟨"id0", "u1", "a@x.com", true, some "Ada", none, 5, 5, some 5,
        UserStatus.active, PrivacyLevel.default, none⟩]
      9 "idN" true PrivacyLevel.default none []
      ⟨"id0", "u1", "a@x.com", true, some "Ada", none, 5, 5, some 5,
        UserStatus.active, PrivacyLevel.default, none⟩
      (by decide)⟩

/-- Claim C6: for an existing user the email-verified flag is mirrored
verbatim from the claims on every reconciliation — the returned user
carries exactly the claims flag, and whenever it differs from the stored
flag (including a true-to-false transition) the update is committed to the
store. -/
theorem upsert_mirrors_verified (p : TokenPayload) (db : List User) (now : Nat)
    (newId : String) (sll : Bool) (dp : PrivacyLevel) (fault : Option DbError)
    (reread : List User) (u : User)
    (hfind : findByUid db p.uid = some u) :
    ∃ r, upsert_user_from_token p db now newId sll dp fault reread = Except.ok r ∧
      r.user.email_verified = p.email_verified.getD false ∧
      (p.email_verified.getD false ≠ u.email_verified →
        r.commits = 1 ∧ findByUid r.db p.uid = some r.user) := by
  rw [upsert_found p db now newId sll dp fault reread u hfind]
  cases hs : (applyClaimsUpdate p u now sll).2 with
  | false =>
    refine ⟨⟨(applyClaimsUpdate p u now sll).1, db, 0⟩, by simp [hs],
      applyClaimsUpdate_email_verified p u now sll, fun hne => ?_⟩
    exact absurd (applyClaimsUpdate_flag_of_verified p u now sll hne) (by simp [hs])
  | true =>
    refine ⟨⟨{ (applyClaimsUpdate p u now sll).1 with updated_at := now },
        updateByUid db { (applyClaimsUpdate p u now sll).1 with updated_at := now }, 1⟩,
      by simp [hs], applyClaimsUpdate_email_verified p u now sll, fun hne => ⟨rfl, ?_⟩⟩
    exact findByUid_updateByUid _ hfind (applyClaimsUpdate_firebase_uid p u now sll)

/-- Witness for C6: stored flag true, claims flag false. -/
theorem upsert_mirrors_verified_witness :
    findByUid [⟨"id0", "u1", "a@x.com", true, some "Ada", none, 5, 5, some 5,
        UserStatus.active, PrivacyLevel.default, none⟩] "u1" =
      some ⟨"id0", "u1", "a@x.com", true, some "Ada", none, 5, 5, some 5,
        UserStatus.active, PrivacyLevel.default, none⟩ ∧
    ∃ r, upsert_user_from_token ⟨"u1", none, some false, none, none⟩
        [⟨"id0", "u1", "a@x.com", true, some "Ada", none, 5, 5, some 5,
          UserStatus.active, PrivacyLevel.default, none⟩]
        9 "idN" false PrivacyLevel.default none [] = Except.ok r ∧
      r.user.email_verified = false ∧
      (false ≠ true →
        r.commits = 1 ∧ findByUid r.db "u1" = some r.user) :=
  ⟨by decide,
    upsert_mirrors_verified ⟨"u1", none, some false, none, none⟩
      [⟨"id0", "u1", "a@x.com", true, some "Ada", none, 5, 5, some 5,
        UserStatus.active, PrivacyLevel.default, none⟩]
      9 "idN" false PrivacyLevel.default none []
      ⟨"id0", "u1", "a@x.com", true, some "Ada", none, 5, 5, some 5,
        UserStatus.active, PrivacyLevel.default, none⟩
      (by decide)⟩

/-- Claim C7: for an existing user, a non-empty claims email that differs
from the stored one is mirrored into the returned user; with
`set_last_login = true` the login stamp is set unconditionally to the call
time; and whenever the found branch flagged a change, exactly one commit
is issued, the updated-at column is refreshed to the call time by the
`onupdate` hook, and the updated row is what the store then holds for the
subject id. -/
theorem upsert_found_updates (p : TokenPayload) (db : List User) (now : Nat)
    (newId : String) (sll : Bool) (dp : PrivacyLevel) (fault : Option DbError)
    (reread : List User) (u : User)
    (hfind : findByUid db p.uid = some u) :
    ∃ r, upsert_user_from_token p db now newId sll dp fault reread = Except.ok r ∧
      (strTruthy p.email = true → u.email ≠ p.email.getD "" →
        r.user.email = p.email.getD "") ∧
      (sll = true → r.user.last_login_at = some now) ∧
      ((applyClaimsUpdate p u now sll).2 = true →
        r.commits = 1 ∧ r.user.updated_at = now ∧
        findByUid r.db p.uid = some r.user) := by
  rw [upsert_found p db now newId sll dp fault reread u hfind]
  cases hs : (applyClaimsUpdate p u now sll).2 with
  | false =>
    refine ⟨⟨(applyClaimsUpdate p u now sll).1, db, 0⟩, by simp [hs],
      fun he hne => applyClaimsUpdate_email_set p u now sll he hne,
      fun hsll => ?_, fun h => by simp [hs] at h⟩
    subst hsll
    exact absurd (applyClaimsUpdate_flag_of_sll p u now) (by simp [hs])
  | true =>
    refine ⟨⟨{ (applyClaimsUpdate p u now sll).1 with updated_at := now },
        updateByUid db { (applyClaimsUpdate p u now sll).1 with updated_at := now }, 1⟩,
      by simp [hs],
      fun he hne => applyClaimsUpdate_email_set p u now sll he hne,
      fun hsll => applyClaimsUpdate_last_login p u now hsll,
      fun _ => ⟨rfl, rfl, ?_⟩⟩
    exact findByUid_updateByUid _ hfind (applyClaimsUpdate_firebase_uid p u now sll)

/-- Witness for C7: returning user with a stale stored email. -/
theorem upsert_found_updates_witness :
    findByUid [⟨"id0", "u1", "old@example.com", true, some "Ada", none, 5, 5, some 5,
        UserStatus.active, PrivacyLevel.default, none⟩] "u1" =
      some ⟨"id0", "u1", "old@example.com", true, some "Ada", none, 5, 5, some 5,
        UserStatus.active, PrivacyLevel.default, none⟩ ∧
    ∃ r, upsert_user_from_token ⟨"u1", some "new@example.com", some true, none, none⟩
        [⟨"id0", "u1", "old@example.com", true, some "Ada", none, 5, 5, some 5,
          UserStatus.active, PrivacyLevel.default, none⟩]
        9 "idN" true PrivacyLevel.default none [] = Except.ok r ∧
      (strTruthy (some "new@example.com") = true →
        "old@example.com" ≠ (some "new@example.com" : Option String).getD "" →
        r.user.email = (some "new@example.com" : Option String).getD "") ∧
      (true = true → r.user.last_login_at = some 9) ∧
      ((applyClaimsUpdate ⟨"u1", some "new@example.com", some true, none, none⟩
          ⟨"id0", "u1", "old@example.com", true, some "Ada", none, 5, 5, some 5,
            UserStatus.active, PrivacyLevel.default, none⟩ 9 true).2 = true →
        r.commits = 1 ∧ r.user.updated_at = 9 ∧
        findByUid r.db "u1" = some r.user) :=
  ⟨by decide,
    upsert_found_updates ⟨"u1", some "new@example.com", some true, none, none⟩
      [⟨"id0", "u1", "old@example.com", true, some "Ada", none, 5, 5, some 5,
        UserStatus.active, PrivacyLevel.default, none⟩]
      9 "idN" true PrivacyLevel.default none []
      ⟨"id0", "u1", "old@example.com", true, some "Ada", none, 5, 5, some 5,
        UserStatus.active, PrivacyLevel.default, none⟩
      (by decide)⟩

/-- Claim C10: for an existing user whose stored email-verified flag is
true, claims that omit the email-verified key entirely are treated as
carrying false: the flag is reset to false, committed, and the store then
holds the reset row for the subject id. -/
theorem upsert_absent_verified_resets (p : TokenPayload) (db : List User) (now : Nat)
    (newId : String) (sll : Bool) (dp : PrivacyLevel) (fault : Option DbError)
    (reread : List User) (u : User)
    (hfind : findByUid db p.uid = some u)
    (hstored : u.email_verified = true)
    (habs : p.email_verified = none) :
    ∃ r, upsert_user_from_token p db now newId sll dp fault reread = Except.ok r ∧
      r.user.email_verified = false ∧ r.commits = 1 ∧
      findByUid r.db p.uid = some r.user := by
  have hne : p.email_verified.getD false ≠ u.email_verified := by
    simp [habs, hstored]
  have hflag := applyClaimsUpdate_flag_of_verified p u now sll hne
  rw [upsert_found p db now newId sll dp fault reread u hfind]
  refine ⟨⟨{ (applyClaimsUpdate p u now sll).1 with updated_at := now },
      updateByUid db { (applyClaimsUpdate p u now sll).1 with updated_at := now }, 1⟩,
    by simp [hflag], ?_, rfl, ?_⟩
  · have h := applyClaimsUpdate_email_verified p u now sll
    simpa [habs] using h
  · exact findByUid_updateByUid _ hfind (applyClaimsUpdate_firebase_uid p u now sll)

/-- Witness for C10: stored flag true, claims record with no
email-verified key. -/
theorem upsert_absent_verified_resets_witness :
    (findByUid [⟨"id0", "u1", "a@x.com", true, some "Ada", none, 5, 5, some 5,
        UserStatus.active, PrivacyLevel.default, none⟩] "u1" =
      some ⟨"id0", "u1", "a@x.com", true, some "Ada", none, 5, 5, some 5,
        UserStatus.active, PrivacyLevel.default, none⟩ ∧
      (true : Bool) = true ∧ (none : Option Bool) = none) ∧
    ∃ r, upsert_user_from_token ⟨"u1", none, none, none, none⟩
        [⟨"id0", "u1", "a@x.com", true, some "Ada", none, 5, 5, some 5,
          UserStatus.active, PrivacyLevel.default, none⟩]
        9 "idN" false PrivacyLevel.default none [] = Except.ok r ∧
      r.user.email_verified = false ∧ r.commits = 1 ∧
      findByUid r.db "u1" = some r.user :=
  ⟨⟨by decide, rfl, rfl⟩,
    upsert_absent_verified_resets ⟨"u1", none, none, none, none⟩
      [⟨"id0", "u1", "a@x.com", true, some "Ada", none, 5, 5, some 5,
        UserStatus.active, PrivacyLevel.default, none⟩]
      9 "idN" false PrivacyLevel.default none []
      ⟨"id0", "u1", "a@x.com", true, some "Ada", none, 5, 5, some 5,
        UserStatus.active, PrivacyLevel.default, none⟩
      (by decide) (by decide) (by decide)⟩

/-- Claim C8: the public projection never exposes the encrypted PII
field — two valid User records that differ only in `pii_encrypted_blob`
project to identical mappings (and the projection is a total pure Lean
function by construction). -/
theorem public_dict_excludes_pii (u : User) (b : Option (List Nat)) :
    User.public_dict { u with pii_encrypted_blob := b } = User.public_dict u := rfl

/-- Counterexample to claim C1 as stated: the create-branch except clause
catches the whole IntegrityError class, so a persistence failure that is
an integrity violation but NOT a uniqueness violation on the external
subject id (here `DbError.otherIntegrity`, e.g. a primary-key collision)
is also absorbed — the routine rolls back, re-reads by subject id and
returns the concurrently created row instead of propagating the error. -/
theorem upsert_absorbs_nonuid_integrity :
    upsert_user_from_token ⟨"u2", none, none, none, none⟩ [] 9 "idN" true
        PrivacyLevel.default (some DbError.otherIntegrity)
        [⟨"idW", "u2", "w@x.com", false, none, none, 3, 3, none, UserStatus.active,
          PrivacyLevel.default, none⟩] =
      Except.ok ⟨⟨"idW", "u2", "w@x.com", false, none, none, 3, 3, none,
          UserStatus.active, PrivacyLevel.default, none⟩,
        [⟨"idW", "u2", "w@x.com", false, none, none, 3, 3, none, UserStatus.active,
          PrivacyLevel.default, none⟩], 0⟩ ∧
    DbError.isIntegrityError DbError.otherIntegrity = true ∧
    DbError.otherIntegrity ≠ DbError.uniqueViolationUid :=
  ⟨rfl, rfl, by decide⟩

/-- Claim C1 as amended: when persisting a newly constructed User fails,
the failure is absorbed (rollback, re-read by subject id, return the
winning row) iff it belongs to the IntegrityError class — not only the
uniqueness violation on the subject id; every non-integrity persistence
failure propagates to the caller, and an absorbed integrity failure with
no winning row to re-read surfaces as a no-result error. -/
theorem upsert_create_fault (p : TokenPayload) (db reread : List User) (now : Nat)
    (newId : String) (sll : Bool) (dp : PrivacyLevel) (e : DbError)
    (hfind : findByUid db p.uid = none) :
    (e.isIntegrityError = false →
      upsert_user_from_token p db now newId sll dp (some e) reread =
        Except.error e) ∧
    (e.isIntegrityError = true →
      (∀ w, findByUid reread p.uid = some w →
        upsert_user_from_token p db now newId sll dp (some e) reread =
          Except.ok ⟨w, reread, 0⟩) ∧
      (findByUid reread p.uid = none →
        upsert_user_from_token p db now newId sll dp (some e) reread =
          Except.error DbError.noResult)) := by
  refine ⟨fun hni => ?_, fun hi => ⟨fun w hw => ?_, fun hw => ?_⟩⟩
  · simp [upsert_user_from_token, hfind, hni]
  · simp [upsert_user_from_token, hfind, hi, hw]
  · simp [upsert_user_from_token, hfind, hi, hw]

/-- Witness for the amended C1: a uid-uniqueness violation with a
concurrent winner present at re-read, on an empty store. -/
theorem upsert_create_fault_witness :
    findByUid [] "u2" = none ∧
    ((DbError.isIntegrityError DbError.uniqueViolationUid = false →
      upsert_user_from_token ⟨"u2", none, none, none, none⟩ [] 9 "idN" true
          PrivacyLevel.default (some DbError.uniqueViolationUid)
          [⟨"idW", "u2", "w@x.com", false, none, none, 3, 3, none,
            UserStatus.active, PrivacyLevel.default, none⟩] =
        Except.error DbError.uniqueViolationUid) ∧
    (DbError.isIntegrityError DbError.uniqueViolationUid = true →
      (∀ w, findByUid
          [⟨"idW", "u2", "w@x.com", false, none, none, 3, 3, none,
            UserStatus.active, PrivacyLevel.default, none⟩] "u2" = some w →
        upsert_user_from_token ⟨"u2", none, none, none, none⟩ [] 9 "idN" true
            PrivacyLevel.default (some DbError.uniqueViolationUid)
            [⟨"idW", "u2", "w@x.com", false, none, none, 3, 3, none,
              UserStatus.active, PrivacyLevel.default, none⟩] =
          Except.ok ⟨w,
            [⟨"idW", "u2", "w@x.com", false, none, none, 3, 3, none,
              UserStatus.active, PrivacyLevel.default, none⟩], 0⟩) ∧
      (findByUid
          [⟨"idW", "u2", "w@x.com", false, none, none, 3, 3, none,
            UserStatus.active, PrivacyLevel.default, none⟩] "u2" = none →
        upsert_user_from_token ⟨"u2", none, none, none, none⟩ [] 9 "idN" true
            PrivacyLevel.default (some DbError.uniqueViolationUid)
            [⟨"idW", "u2", "w@x.com", false, none, none, 3, 3, none,
              UserStatus.active, PrivacyLevel.default, none⟩] =
          Except.error DbError.noResult))) :=
  ⟨by decide,
    upsert_create_fault ⟨"u2", none, none, none, none⟩ []
      [⟨"idW", "u2", "w@x.com", false, none, none, 3, 3, none,
        UserStatus.active, PrivacyLevel.default, none⟩]
      9 "idN" true PrivacyLevel.default DbError.uniqueViolationUid (by decide)⟩

/-- Counterexample to claim C3 as stated: supplying a
`consent_version_id` equal to the one already stored (and nothing else)
fires the merge flag, so the route issues its additional commit although
no field actually changed — the consent branch is a plain
truthiness-guarded assignment, not diff-gated. -/
theorem signup_merge_commit_without_change :
    signup_route_merge ⟨none, none, some "cv-1"⟩
        ⟨"id0", "u1", "a@x.com", true, some "Ada", none, 5, 5, some 5,
          UserStatus.active, PrivacyLevel.default, some "cv-1"⟩ =
      (⟨"id0", "u1", "a@x.com", true, some "Ada", none, 5, 5, some 5,
          UserStatus.active, PrivacyLevel.default, some "cv-1"⟩, true) :=
  rfl

/-- Claim C3 as amended: in the onboarding merge, `display_name` and
`privacy_level` are diff-gated (applied only when supplied and different
from the current value), but `consent_version_id` is applied whenever it
is supplied, without comparison; the single additional persist fires iff a
diff-gated field changed or a consent version id was supplied — so a
supplied-but-unchanged consent version id still triggers the commit. -/
theorem signup_route_merge_amended (body : SignupRequest) (u : User) :
    (signup_route_merge body u).1.display_name =
      (if strTruthy body.display_name then body.display_name
       else u.display_name) ∧
    (signup_route_merge body u).1.privacy_level =
      body.privacy_level.getD u.privacy_level ∧
    (signup_route_merge body u).1.consent_version_id =
      (if strTruthy body.consent_version_id then body.consent_version_id
       else u.consent_version_id) ∧
    (signup_route_merge body u).2 =
      ((strTruthy body.display_name && (u.display_name != body.display_name)) ||
        (match body.privacy_level with
         | some p => u.privacy_level != p
         | none => false) ||
        strTruthy body.consent_version_id) := by
  simp only [signup_route_merge]
  repeat' split
  all_goals simp_all

/-- Counterexample to claim C9 as stated: the token verifier does not
emit one single opaque error for every failing input — a missing
credential and a provider-rejected credential both map to status 401 but
carry two different detail messages, so the caller can tell which failure
mode occurred. -/
theorem verify_messages_differ :
    verify_firebase_token none (fun _ => Except.error "expired token") =
      Except.error ⟨401, "Missing Authorization bearer token"⟩ ∧
    verify_firebase_token (some "Bearer tok")
        (fun _ => Except.error "expired token") =
      Except.error ⟨401, "Token verification failed"⟩ ∧
    ("Missing Authorization bearer token" : String) ≠
      "Token verification failed" :=
  ⟨rfl, rfl, by decide⟩

lemma verify_error_status (hdr : Option String)
    (vf : String → Except String TokenPayload) (e : HTTPError)
    (he : verify_firebase_token hdr vf = Except.error e) :
    e.status_code = 401 := by
  unfold verify_firebase_token at he
  split at he
  · injection he with h
    rw [← h]
  · split at he
    · exact Except.noConfusion he
    · injection he with h
      rw [← h]

/-- Claim C9 as amended: every failing input yields a 401 Unauthenticated
error, and the detail message never depends on the reason the external
verification call rejected the credential (all provider rejections
collapse to one fixed message); the message does, however, distinguish a
missing or malformed credential from a provider-rejected one. -/
theorem verify_firebase_token_amended (hdr : Option String)
    (vf vf1 vf2 : String → Except String TokenPayload)
    (hrej : ∀ t, (∃ m, vf1 t = Except.error m) ∧ ∃ m, vf2 t = Except.error m) :
    (∀ e, verify_firebase_token hdr vf = Except.error e →
      e.status_code = 401) ∧
    verify_firebase_token hdr vf1 = verify_firebase_token hdr vf2 := by
  refine ⟨fun e he => verify_error_status hdr vf e he, ?_⟩
  by_cases hc :
      (!(strTruthy hdr) || !(pyStartsWith (hdr.getD "") "Bearer ")) = true
  · simp [verify_firebase_token, hc]
  · obtain ⟨⟨m1, h1⟩, m2, h2⟩ := hrej (bearer_token hdr)
    simp [verify_firebase_token, hc, h1, h2]

/-- Witness for the amended C9: a rejected bearer token, with two
verifiers that reject every token for different reasons. -/
theorem verify_firebase_token_amended_witness :
    (∀ t, (∃ m, (fun _ : String =>
        (Except.error "expired" : Except String TokenPayload)) t =
          Except.error m) ∧
      ∃ m, (fun _ : String =>
        (Except.error "revoked" : Except String TokenPayload)) t =
          Except.error m) ∧
    ((∀ e, verify_firebase_token (some "Bearer tok")
        (fun _ => Except.error "bad signature") = Except.error e →
      e.status_code = 401) ∧
    verify_firebase_token (some "Bearer tok")
        (fun _ => Except.error "expired") =
      verify_firebase_token (some "Bearer tok")
        (fun _ => Except.error "revoked")) :=
  ⟨fun _ => ⟨⟨"expired", rfl⟩, ⟨"revoked", rfl⟩⟩,
    verify_firebase_token_amended (some "Bearer tok")
      (fun _ => Except.error "bad signature")
      (fun _ => Except.error "expired")
      (fun _ => Except.error "revoked")
      (fun _ => ⟨⟨"expired", rfl⟩, ⟨"revoked", rfl⟩⟩)⟩

end InterBackend
